import Mathlib

/-!
Verification of the data-filler web UI (`src/app.py`, `src/config.py`).

The repository is a Streamlit front-end over an external data-generation
library (`parsing.parse_create_tables`, `filling.DataGenerator`).  The UI's
own control flow — the session-state machine driven by the "Parse SQL",
"Preview Inferred Mappings" and "Generate Data" buttons, the export/zip
step, and the custom log handler — is embedded here directly from
`src/app.py`.  Calls into the external library (JSON decoding, parsing,
generator construction, generation, the preview routine and the file
exporters) are modelled as explicit parameters returning `Except`/values,
and, where a claim is about the library's behaviour itself, as
definitions modelled from the specification (marked `Modelled from the
spec:` in their doc comments).
-/

namespace DataFillerWebUI

/-- A generated cell value (integers for keys, strings for everything else). -/
inductive Value where
  | int : Int → Value
  | str : String → Value
deriving DecidableEq, Repr

/-- Modelled from the spec (§3 ColumnDefinition, reduced to the fields the
claims need): a column has a name, a primary-key flag and an optional
foreign-key target table. -/
structure ColumnSpec where
  name : String
  isPrimaryKey : Bool
  foreignKeyTo : Option String
deriving DecidableEq, Repr

/-- Modelled from the spec (§3 TableDefinition): a table is a name and an
ordered sequence of column definitions. -/
structure TableSpec where
  name : String
  columns : List ColumnSpec
deriving DecidableEq, Repr

/-- A schema: ordered list of table definitions (declaration order). -/
abbrev Schema := List TableSpec

/-- A generated row: ordered column-name/value pairs. -/
abbrev Row := List (String × Value)

/-- A generated dataset: ordered mapping table name → generated rows
(spec §3 GeneratedDataset). -/
abbrev Dataset := List (String × List Row)

/-! ## Logging (`StreamlitLogHandler`, src/app.py lines 18-43) -/

/-- The part of a Python `logging.LogRecord` that `emit` reads:
`record.levelname` and `record.getMessage()`. -/
structure LogRecord where
  levelname : String
  msg : String
deriving DecidableEq, Repr

/-- The `line` computed by `StreamlitLogHandler.emit` (src/app.py lines
27-34): `lvl = record.levelname.upper()` and the three-way branch on it. -/
def emitLine (r : LogRecord) : String :=
  if r.levelname.toUpper == "INFO" then "[INFO] " ++ r.msg
  else if r.levelname.toUpper == "ERROR" then "[ERROR] " ++ r.msg
  else "[" ++ r.levelname.toUpper ++ "] " ++ r.msg

/-- `StreamlitLogHandler.emit` (src/app.py lines 24-35): formats the record
as `[LEVEL] message` and appends it to the session's `log_messages` list. -/
def emit (logs : List String) (r : LogRecord) : List String :=
  logs ++ [emitLine r]

/-- The `[LEVEL] message` line all three branches of `emit` produce. -/
def logLine (r : LogRecord) : String :=
  "[" ++ r.levelname.toUpper ++ "] " ++ r.msg

/-! ## Configuration values and the engine-call interface

The three JSON text areas decode (via Python's `json.loads`, external
stdlib) to nested mappings; they are modelled as association lists, and
the decode results reaching the handler as `Except` values. -/

/-- `predefined_values`: scope (`"global"` or a table name) → column name
→ pool of fixed values. -/
abbrev PredefinedValues := List (String × List (String × List String))

/-- `column_type_mappings`: scope → column name → generator name. -/
abbrev ColumnTypeMappings := List (String × List (String × String))

/-- `num_rows_per_table`: table name → configured row count. -/
abbrev NumRowsPerTable := List (String × Nat)

/-- The keyword arguments `app.py` passes to the external
`filling.DataGenerator` constructor (src/app.py lines 153-158 and
182-190).  Arguments the call site omits are `none`. -/
structure DGArgs where
  tables : Schema
  numRows : Nat
  predefinedValues : Option PredefinedValues
  columnTypeMappings : Option ColumnTypeMappings
  numRowsPerTable : Option NumRowsPerTable
  guessColumnTypeMappings : Bool
  thresholdForGuessing : ℚ
deriving DecidableEq, Repr

/-- A constructed `DataGenerator` instance as the session stores it: its
construction arguments and the dataset its `generate_data` produced. -/
structure DG where
  args : DGArgs
  generatedData : Dataset
deriving DecidableEq, Repr

/-- Modelled from the spec (§4.4, "Row count for a table = configured
per-table count if present, else the global fallback"): the row count the
engine uses for a table, from `num_rows_per_table` and the constructor's
`num_rows`. -/
def rowCountFor (args : DGArgs) (tbl : String) : Nat :=
  match args.numRowsPerTable with
  | some m => (m.lookup tbl).getD args.numRows
  | none => args.numRows

/-- A handler attached to the root logger: either the custom
`StreamlitLogHandler` or some other handler. -/
inductive Handler where
  | streamlitLog : Handler
  | other : String → Handler
deriving DecidableEq, Repr

/-- The `isinstance(h, StreamlitLogHandler)` test. -/
def Handler.isStreamlitLog : Handler → Bool
  | .streamlitLog => true
  | .other _ => false

/-- Module-initialization code (src/app.py lines 41-43): attach a new
`StreamlitLogHandler` to the root logger unless one is already attached. -/
def attachHandlerStep (hs : List Handler) : List Handler :=
  if hs.any Handler.isStreamlitLog then hs else hs ++ [Handler.streamlitLog]

/-- Number of `StreamlitLogHandler`s among the root logger's handlers. -/
def countStreamlit (hs : List Handler) : Nat :=
  (hs.filter Handler.isStreamlitLog).length

/-! ## The session-state machine of `main` (src/app.py lines 69-257) -/

/-- The Streamlit session state `main` manipulates: `tables_parsed`,
`data_generator` (both initialized to `None`, lines 89-92) and
`log_messages`. -/
structure SessionState where
  tablesParsed : Option Schema
  dataGenerator : Option DG
  logMessages : List String
deriving DecidableEq, Repr

/-- Step 2/3 are rendered only under
`if st.session_state["tables_parsed"] is not None` (src/app.py line 113). -/
def configOffered (s : SessionState) : Bool := s.tablesParsed.isSome

/-- Step 4 (export) is rendered only under
`if st.session_state.get("data_generator") is not None`
(src/app.py line 209). -/
def exportOffered (s : SessionState) : Bool := s.dataGenerator.isSome

/-- The "Parse SQL" handler (src/app.py lines 96-108).  `parseResult` is
the outcome of the external `parse_create_tables(sql_script.strip(),
dialect=dialect)` call.  Logs are cleared first (line 97); on success the
schema is stored and the previous generator cleared (lines 100-101); on
exception both are cleared (lines 105-106) and one `st.error` is shown.
Returns the new state and the list of error messages shown. -/
def parseAction (_s : SessionState) (dialect : String)
    (parseResult : Except String Schema) : SessionState × List String :=
  match parseResult with
  | .ok tables =>
      let logs :=
        emit [] ⟨"INFO", "SQL script parsed successfully using dialect "
                   ++ dialect ++ "."⟩
      ({ tablesParsed := some tables, dataGenerator := none,
         logMessages := logs }, [])
  | .error e =>
      let logs := emit [] ⟨"ERROR", "Error parsing SQL: " ++ e⟩
      ({ tablesParsed := none, dataGenerator := none,
         logMessages := logs },
       ["Error parsing SQL: " ++ e])

/-- The `threshold_for_guessing` expression (src/app.py line 148): the
slider value (whose widget bounds are 0.0 and 1.0) when guessing is
enabled, the constant 0.8 otherwise. -/
def thresholdForGuessing (guessMapping : Bool) (slider : ℚ) : ℚ :=
  if guessMapping then slider else 4/5

/-- The `DataGenerator` arguments of the preview handler (src/app.py
lines 153-158): the schema, `num_rows=5`, guessing on, the current
threshold — and nothing else. -/
def previewDGArgs (schema : Schema) (threshold : ℚ) : DGArgs :=
  { tables := schema, numRows := 5, predefinedValues := none,
    columnTypeMappings := none, numRowsPerTable := none,
    guessColumnTypeMappings := true, thresholdForGuessing := threshold }

/-- The "Preview Inferred Mappings" handler (src/app.py lines 150-168).
`runPreview` is the external `preview_inferred_mappings(num_preview=5)`
call with its stdout captured.  Returns the new state, the error messages
shown, and the preview text displayed (if any). -/
def previewAction (s : SessionState) (schema : Schema) (threshold : ℚ)
    (runPreview : DGArgs → Except String String) :
    SessionState × List String × Option String :=
  match runPreview (previewDGArgs schema threshold) with
  | .ok out =>
      let logs :=
        emit s.logMessages
          ⟨"INFO", "Auto-inferred column mapping preview complete."⟩
      ({ s with logMessages := logs }, [], some out)
  | .error e =>
      let logs :=
        emit s.logMessages ⟨"ERROR", "Error previewing mappings: " ++ e⟩
      ({ s with logMessages := logs },
       ["Error previewing mappings: " ++ e], none)

/-- What the spec says the preview receives (§6 `preview_strategies
(schema, config, sample_size)`, config including `predefined_values` and
`column_type_mappings`), stated of the arguments actually passed. -/
def PreviewReceivesFullConfig (schema : Schema) (p : PredefinedValues)
    (c : ColumnTypeMappings) (sampleSize : Nat) (args : DGArgs) : Prop :=
  args.tables = schema ∧ args.predefinedValues = some p ∧
  args.columnTypeMappings = some c ∧ args.numRows = sampleSize

/-- The `DataGenerator` arguments of the "Generate Data" handler
(src/app.py lines 182-190): schema, global row count, the three decoded
JSON configurations, the guess flag and the threshold. -/
def mkDGArgs (schema : Schema) (globalNumRows : Nat) (p : PredefinedValues)
    (c : ColumnTypeMappings) (n : NumRowsPerTable) (guessMapping : Bool)
    (threshold : ℚ) : DGArgs :=
  { tables := schema, numRows := globalNumRows, predefinedValues := some p,
    columnTypeMappings := some c, numRowsPerTable := some n,
    guessColumnTypeMappings := guessMapping,
    thresholdForGuessing := threshold }

/-- The try-block of the "Generate Data" handler (src/app.py lines
176-192): decode the three JSON inputs, construct the generator, run
`generate_data`; the first failing step aborts the block. -/
def generateOutcome (schema : Schema) (globalNumRows : Nat)
    (predefR : Except String PredefinedValues)
    (colmapR : Except String ColumnTypeMappings)
    (numRowsR : Except String NumRowsPerTable)
    (guessMapping : Bool) (threshold : ℚ)
    (run : DGArgs → Except String Dataset) : Except String DG := do
  let p ← predefR
  let c ← colmapR
  let n ← numRowsR
  let args := mkDGArgs schema globalNumRows p c n guessMapping threshold
  let d ← run args
  pure ⟨args, d⟩

/-- The "Generate Data" handler (src/app.py lines 175-204): on success
the generator instance is stored for export (line 193); on any exception
the stored generator is cleared (line 202) and a single `st.error` is
shown (line 203).  Returns the new state and the error messages shown. -/
def generateAction (s : SessionState) (schema : Schema)
    (globalNumRows : Nat) (predefR : Except String PredefinedValues)
    (colmapR : Except String ColumnTypeMappings)
    (numRowsR : Except String NumRowsPerTable)
    (guessMapping : Bool) (threshold : ℚ)
    (run : DGArgs → Except String Dataset) : SessionState × List String :=
  match generateOutcome schema globalNumRows predefR colmapR numRowsR
      guessMapping threshold run with
  | .ok dg =>
      let logs := emit s.logMessages ⟨"INFO", "Data generation complete."⟩
      ({ s with dataGenerator := some dg, logMessages := logs }, [])
  | .error e =>
      let logs :=
        emit s.logMessages ⟨"ERROR", "Error generating data: " ++ e⟩
      ({ s with dataGenerator := none, logMessages := logs },
       ["Error generating data: " ++ e])

/-! ## Row generation engine, modelled from the spec

`DataGenerator.generate_data` lives in the external `filling` library, not
in this repository's sources; only its caller (src/app.py lines 182-192)
is.  The row generator is therefore modelled from the spec (§4.4): tables
are processed strictly in GenerationPlan order, primary keys are a
per-table monotonic sequence starting at 1, foreign-key columns sample an
existing primary-key value from the already-completed parent table's rows
(failing when the parent produced zero rows), and all other columns are
filled by the column's resolved strategy.  Random sampling is modelled by
an arbitrary oracle `orc : String → Nat → String → Nat` giving, per
(table, row index, column), the index drawn; strategy values for
non-key columns are opaque strings.  Null-defaulting of optional
self-referencing foreign keys (§4.4 last bullet) is out of this model's
scope: every modelled foreign key samples from the parent. -/

/-- The primary-key column of a table (first column flagged as PK). -/
def primaryKeyColumn (t : TableSpec) : Option String :=
  (t.columns.find? (·.isPrimaryKey)).map (·.name)

/-- Modelled from the spec: the primary-key values the parent table
`parent` has so far contributed to the dataset `ds` — the values of the
parent's primary-key column across its generated rows. -/
def pkValuesIn (schema : Schema) (ds : Dataset) (parent : String) : List Value :=
  match schema.find? (fun s => s.name == parent), ds.lookup parent with
  | some pt, some rows =>
      match primaryKeyColumn pt with
      | some pkCol => rows.filterMap (fun r => r.lookup pkCol)
      | none => []
  | _, _ => []

/-- Modelled from the spec (§4.3 step 4 / §4.4): the value produced for a
non-key column by its resolved strategy — opaque, but distinct per column
and row so nothing about it is accidentally provable. -/
def strategyValue (c : ColumnSpec) (rowIdx : Nat) : Value :=
  .str (c.name ++ "_" ++ toString rowIdx)

/-- Modelled from the spec (§4.4): one cell.  A foreign-key column draws
an existing parent primary-key value (the oracle pick, reduced modulo the
pool size; `none` — generation failure — when the parent has no rows); a
primary-key column gets the next value of the per-table sequence
(`rowIdx + 1`, starting at 1); any other column uses its strategy. -/
def genCell (schema : Schema) (ds : Dataset) (pick : Nat) (rowIdx : Nat)
    (c : ColumnSpec) : Option Value :=
  match c.foreignKeyTo with
  | some parent =>
      (pkValuesIn schema ds parent).get?
        (pick % (pkValuesIn schema ds parent).length)
  | none =>
      if c.isPrimaryKey then some (.int (rowIdx + 1))
      else some (strategyValue c rowIdx)

/-- Modelled from the spec (§4.4): one row — each declared column in
order, failing if any cell fails. -/
def genCells (schema : Schema) (ds : Dataset) (orc : String → Nat)
    (rowIdx : Nat) : List ColumnSpec → Option Row
  | [] => some []
  | c :: cs =>
    match genCell schema ds (orc c.name) rowIdx c,
          genCells schema ds orc rowIdx cs with
    | some v, some row => some ((c.name, v) :: row)
    | _, _ => none

/-- Modelled from the spec (§4.4): the rows of one table, row indices
`0..count-1` in order, all drawn against the dataset of already-completed
tables. -/
def genRows (schema : Schema) (ds : Dataset) (orc : String → Nat → String → Nat)
    (tname : String) (cols : List ColumnSpec) : Nat → Option (List Row)
  | 0 => some []
  | n + 1 =>
    match genRows schema ds orc tname cols n,
          genCells schema ds (orc tname n) n cols with
    | some rs, some r => some (rs ++ [r])
    | _, _ => none

/-- Modelled from the spec (§4.4): process the remaining plan in order,
appending each finished table's rows to the accumulated dataset. -/
def generateData (schema : Schema) (orc : String → Nat → String → Nat)
    (rowsFor : String → Nat) : List TableSpec → Dataset → Option Dataset
  | [], ds => some ds
  | t :: rest, ds =>
    match genRows schema ds orc t.name t.columns (rowsFor t.name) with
    | some rows => generateData schema orc rowsFor rest (ds ++ [(t.name, rows)])
    | none => none

/-- Modelled from the spec (§4.4 / §6 `generate`): run the whole plan
(the schema in dependency order) from an empty dataset. -/
def generate (schema : Schema) (orc : String → Nat → String → Nat)
    (rowsFor : String → Nat) : Option Dataset :=
  generateData schema orc rowsFor schema []

/-- A generated row conforms to its table's declared columns w.r.t.
dataset `ds`: cells pair up positionally with the columns, carry the
column's name, and every foreign-key cell holds one of the parent's
primary-key values in `ds`. -/
def RowConforms (schema : Schema) (ds : Dataset) (cols : List ColumnSpec)
    (row : Row) : Prop :=
  List.Forall₂
    (fun c pr => pr.1 = c.name ∧
      ∀ p, c.foreignKeyTo = some p → pr.2 ∈ pkValuesIn schema ds p)
    cols row

/-- Referential integrity of a dataset: every row of every generated
table conforms, i.e. every foreign-key column value equals some
primary-key value of the corresponding parent table's generated rows. -/
def IntegrityHolds (schema : Schema) (ds : Dataset) : Prop :=
  ∀ e ∈ ds, ∀ t, schema.find? (fun s => s.name == e.1) = some t →
    ∀ row ∈ e.2, RowConforms schema ds t.columns row

/-- The spec's §8 scenario schema: `Authors(author_id PK)` and
`Books(book_id PK, author_id FK→Authors, title)`. -/
def demoSchema : Schema :=
  [⟨"Authors", [⟨"author_id", true, none⟩]⟩,
   ⟨"Books", [⟨"book_id", true, none⟩, ⟨"author_id", false, some "Authors"⟩,
              ⟨"title", false, none⟩]⟩]

/-- A concrete sampling oracle for the witness. -/
def demoOracle : String → Nat → String → Nat := fun _ i _ => i

/-- A concrete per-table row count for the witness. -/
def demoRowsFor : String → Nat := fun _ => 2

/-- The dataset the modelled generator produces on the demo inputs. -/
def demoDataset : Dataset := (generate demoSchema demoOracle demoRowsFor).getD []

/-- A sample decoded `predefined_values` configuration (the UI default,
src/app.py line 123). -/
def demoPredef : PredefinedValues := [("global", [("sex", ["M", "F"])])]

/-- A sample decoded `column_type_mappings` configuration. -/
def demoColmap : ColumnTypeMappings := [("global", [("email", "email")])]

/-- A sample decoded `num_rows_per_table` configuration (the spec's §8
scenario counts). -/
def demoNumRows : NumRowsPerTable := [("Authors", 5), ("Books", 20)]

/-- A concrete engine run for witnesses: the modelled generator on the
constructor's schema, with the modelled per-table row counts. -/
def demoRun : DGArgs → Except String Dataset := fun args =>
  match generate args.tables demoOracle (rowCountFor args) with
  | some d => .ok d
  | none => .error "generation failed"

/-! ## Export step (src/app.py lines 46-66 and 209-247)

The temporary directory is modelled as the list of `(path, content)`
pairs written so far; a ZIP archive as the list of `(arcname, content)`
entries.  The external exporters' per-table content is opaque
(parameters `sqlOf`, `jsonOf`, `csvOf`). -/

/-- `os.path.basename`: the part of the path after the last `/`. -/
def basename (p : String) : String :=
  String.mk ((p.data.reverse.takeWhile (fun ch => ch ≠ '/')).reverse)

/-- `glob.glob(os.path.join(directory, pattern))` membership for the
`*`-led patterns the app uses (`*.json`, `*.csv`): the file's base name
ends with the pattern's suffix. -/
def matchesPattern (pattern : String) (path : String) : Bool :=
  decide ((pattern.drop 1).data <:+ (basename path).data)

/-- `export_files_zip_in_memory` (src/app.py lines 46-66): zip all files
from the directory that match the pattern, each archive entry named by
the file's base name. -/
def export_files_zip_in_memory (files : List (String × String))
    (pattern : String) : List (String × String) :=
  (files.filter (fun f => matchesPattern pattern f.1)).map
    (fun f => (basename f.1, f.2))

/-- Modelled from the spec (§6 `to_sql_inserts` / `to_table_files`, §2
Export Adapters): the external `export_data_files(directory, file_type)`
writes, for SQL, the single file `data_inserts.sql` with the insert text,
and for JSON/CSV one file per table named `<table>.<ext>` — one unit of
content per table — into the directory, reading the generator's stored
dataset. -/
def export_data_files (dg : DG) (dir : String) (fileType : String)
    (sqlOf : Dataset → String) (jsonOf csvOf : String → List Row → String) :
    List (String × String) :=
  if fileType == "SQL" then
    [(dir ++ "/" ++ "data_inserts.sql", sqlOf dg.generatedData)]
  else if fileType == "JSON" then
    dg.generatedData.map
      (fun e => (dir ++ "/" ++ (e.1 ++ ".json"), jsonOf e.1 e.2))
  else if fileType == "CSV" then
    dg.generatedData.map
      (fun e => (dir ++ "/" ++ (e.1 ++ ".csv"), csvOf e.1 e.2))
  else []

/-- The three downloads the export step offers. -/
structure ExportOutputs where
  sqlDownload : Option String
  jsonZip : List (String × String)
  csvZip : List (String × String)
deriving DecidableEq, Repr

/-- The export step (src/app.py lines 209-247): into one temporary
directory, export SQL and read back `data_inserts.sql` for the SQL
download, then export JSON and zip the `*.json` files, then export CSV
and zip the `*.csv` files — all from the one stored generator, without
regenerating. -/
def exportStep (dg : DG) (dir : String) (sqlOf : Dataset → String)
    (jsonOf csvOf : String → List Row → String) : ExportOutputs :=
  let files1 := export_data_files dg dir "SQL" sqlOf jsonOf csvOf
  let sqlDownload := files1.lookup (dir ++ "/" ++ "data_inserts.sql")
  let files2 := files1 ++ export_data_files dg dir "JSON" sqlOf jsonOf csvOf
  let jsonZip := export_files_zip_in_memory files2 "*.json"
  let files3 := files2 ++ export_data_files dg dir "CSV" sqlOf jsonOf csvOf
  let csvZip := export_files_zip_in_memory files3 "*.csv"
  ⟨sqlDownload, jsonZip, csvZip⟩

/-- Concrete SQL-insert content for witnesses. -/
def demoSqlOf : Dataset → String := fun d => "sql:" ++ toString d.length

/-- Concrete per-table JSON content for witnesses. -/
def demoJsonOf : String → List Row → String :=
  fun t rows => "json:" ++ t ++ ":" ++ toString rows.length

/-- Concrete per-table CSV content for witnesses. -/
def demoCsvOf : String → List Row → String :=
  fun t rows => "csv:" ++ t ++ ":" ++ toString rows.length

/-- A stored generator instance for the export witness. -/
def demoDG : DG :=
  ⟨mkDGArgs demoSchema 10 demoPredef demoColmap demoNumRows false (4/5),
   demoDataset⟩

lemma emitLine_eq (r : LogRecord) : emitLine r = logLine r := by
  unfold emitLine logLine
  by_cases h1 : (r.levelname.toUpper == "INFO") = true
  · rw [if_pos h1, eq_of_beq h1]
    rw [(by decide : ("[" ++ "INFO" ++ "] " : String) = "[INFO] ")]
  · rw [if_neg h1]
    by_cases h2 : (r.levelname.toUpper == "ERROR") = true
    · rw [if_pos h2, eq_of_beq h2]
      rw [(by decide : ("[" ++ "ERROR" ++ "] " : String) = "[ERROR] ")]
    · rw [if_neg h2]

lemma emit_eq (logs : List String) (r : LogRecord) :
    emit logs r = logs ++ [logLine r] := by
  rw [emit, emitLine_eq]

lemma countStreamlit_append (hs hs' : List Handler) :
    countStreamlit (hs ++ hs') = countStreamlit hs + countStreamlit hs' := by
  simp [countStreamlit, List.filter_append]

lemma countStreamlit_attachHandlerStep (hs : List Handler)
    (h : countStreamlit hs ≤ 1) :
    countStreamlit (attachHandlerStep hs) ≤ 1 := by
  unfold attachHandlerStep
  by_cases hany : hs.any Handler.isStreamlitLog = true
  · simpa [hany] using h
  · have hzero : countStreamlit hs = 0 := by
      have h' : ∀ a ∈ hs, ¬ Handler.isStreamlitLog a = true := by
        simpa [List.any_eq_true] using hany
      simp only [countStreamlit, List.length_eq_zero, List.filter_eq_nil_iff]
      exact h'
    have hone : countStreamlit [Handler.streamlitLog] = 1 := by decide
    simp [hany, countStreamlit_append, hzero, hone]

lemma lookup_append_left {α β : Type} [BEq α] {l l' : List (α × β)} {a : α}
    {b : β} (h : l.lookup a = some b) : (l ++ l').lookup a = some b := by
  induction l with
  | nil => simp [List.lookup] at h
  | cons x xs ih =>
    rw [List.cons_append]
    rw [List.lookup] at h ⊢
    by_cases hx : (a == x.1) = true
    · simpa [hx] using h
    · simp only [hx] at h ⊢
      exact ih h

lemma pkValuesIn_mono (schema : Schema) (ds e : Dataset) (p : String)
    {v : Value} (h : v ∈ pkValuesIn schema ds p) :
    v ∈ pkValuesIn schema (ds ++ e) p := by
  unfold pkValuesIn at h ⊢
  cases hf : schema.find? (fun s => s.name == p) with
  | none => rw [hf] at h; simp at h
  | some pt =>
    rw [hf] at h
    cases hl : ds.lookup p with
    | none => rw [hl] at h; simp at h
    | some rows =>
      rw [hl] at h
      rw [lookup_append_left hl]
      exact h

lemma genCell_fk {schema : Schema} {ds : Dataset} {pick rowIdx : Nat}
    {c : ColumnSpec} {v : Value} {p : String}
    (hfk : c.foreignKeyTo = some p)
    (h : genCell schema ds pick rowIdx c = some v) :
    v ∈ pkValuesIn schema ds p := by
  unfold genCell at h
  rw [hfk] at h
  exact List.get?_mem h

lemma genCells_conforms {schema : Schema} {ds : Dataset}
    {orc : String → Nat} {rowIdx : Nat} :
    ∀ {cols : List ColumnSpec} {row : Row},
      genCells schema ds orc rowIdx cols = some row →
      RowConforms schema ds cols row := by
  intro cols
  induction cols with
  | nil =>
    intro row h
    unfold genCells at h
    injection h with h
    subst h
    exact List.Forall₂.nil
  | cons c cs ih =>
    intro row h
    unfold genCells at h
    cases h1 : genCell schema ds (orc c.name) rowIdx c with
    | none => rw [h1] at h; simp at h
    | some v =>
      cases h2 : genCells schema ds orc rowIdx cs with
      | none => rw [h1, h2] at h; simp at h
      | some rest =>
        rw [h1, h2] at h
        injection h with h
        subst h
        exact List.Forall₂.cons ⟨rfl, fun p hp => genCell_fk hp h1⟩ (ih h2)

lemma genRows_conforms {schema : Schema} {ds : Dataset}
    {orc : String → Nat → String → Nat} {tname : String}
    {cols : List ColumnSpec} :
    ∀ {n : Nat} {rows : List Row},
      genRows schema ds orc tname cols n = some rows →
      ∀ r ∈ rows, RowConforms schema ds cols r := by
  intro n
  induction n with
  | zero =>
    intro rows h r hr
    unfold genRows at h
    injection h with h
    subst h
    cases hr
  | succ n ih =>
    intro rows h r hr
    unfold genRows at h
    cases h1 : genRows schema ds orc tname cols n with
    | none => rw [h1] at h; simp at h
    | some rs =>
      cases h2 : genCells schema ds (orc tname n) n cols with
      | none => rw [h1, h2] at h; simp at h
      | some r' =>
        rw [h1, h2] at h
        injection h with h
        subst h
        rcases List.mem_append.mp hr with hmem | hmem
        · exact ih h1 r hmem
        · have : r = r' := List.mem_singleton.mp hmem
          subst this
          exact genCells_conforms h2

lemma RowConforms_mono {schema : Schema} {ds e : Dataset}
    {cols : List ColumnSpec} {row : Row}
    (h : RowConforms schema ds cols row) :
    RowConforms schema (ds ++ e) cols row := by
  unfold RowConforms at h ⊢
  exact List.Forall₂.imp
    (fun c pr hc => ⟨hc.1, fun p hp => pkValuesIn_mono _ _ _ _ (hc.2 p hp)⟩) h

lemma find?_name_eq {schema : Schema} {t : TableSpec} :
    (schema.map TableSpec.name).Nodup → t ∈ schema →
    schema.find? (fun s => s.name == t.name) = some t := by
  induction schema with
  | nil => intro _ ht; cases ht
  | cons s ss ih =>
    intro hnd ht
    rw [List.map_cons, List.nodup_cons] at hnd
    obtain ⟨hnotin, hnd'⟩ := hnd
    by_cases hs : (s.name == t.name) = true
    · have heq := eq_of_beq hs
      rcases List.mem_cons.mp ht with rfl | hmem
      · simp [List.find?, hs]
      · have hmem' : t.name ∈ ss.map TableSpec.name :=
          List.mem_map_of_mem TableSpec.name hmem
        rw [← heq] at hmem'
        exact absurd hmem' hnotin
    · have hmem : t ∈ ss := by
        rcases List.mem_cons.mp ht with rfl | hmem
        · exact absurd (by simp) hs
        · exact hmem
      simp only [List.find?, hs]
      exact ih hnd' hmem

lemma generateData_integrity {schema : Schema}
    {orc : String → Nat → String → Nat} {rowsFor : String → Nat}
    (hnd : (schema.map TableSpec.name).Nodup) :
    ∀ (plan : List TableSpec) (ds out : Dataset),
      (∀ t ∈ plan, t ∈ schema) → IntegrityHolds schema ds →
      generateData schema orc rowsFor plan ds = some out →
      IntegrityHolds schema out := by
  intro plan
  induction plan with
  | nil =>
    intro ds out _ hint h
    unfold generateData at h
    injection h with h
    subst h
    exact hint
  | cons t rest ih =>
    intro ds out hsub hint h
    unfold generateData at h
    cases hg : genRows schema ds orc t.name t.columns (rowsFor t.name) with
    | none => rw [hg] at h; simp at h
    | some rows =>
      rw [hg] at h
      refine ih (ds ++ [(t.name, rows)]) out
        (fun u hu => hsub u (List.mem_cons_of_mem _ hu)) ?_ h
      intro e he t' hf row hrow
      rcases List.mem_append.mp he with he | he
      · exact RowConforms_mono (hint e he t' hf row hrow)
      · have he' : e = (t.name, rows) := List.mem_singleton.mp he
        subst he'
        have hft : schema.find? (fun s => s.name == t.name) = some t :=
          find?_name_eq hnd (hsub t (List.mem_cons_self t rest))

        rw [hft] at hf
        injection hf with hf
        subst hf
        exact RowConforms_mono (genRows_conforms hg row hrow)

lemma takeWhile_append_of_all {α : Type} (p : α → Bool) (as bs : List α)
    (h : ∀ a ∈ as, p a = true) :
    (as ++ bs).takeWhile p = as ++ bs.takeWhile p := by
  induction as with
  | nil => simp
  | cons a as ih =>
    rw [List.cons_append]
    have ha : p a = true := h a (List.mem_cons_self a as)
    simp [List.takeWhile_cons, ha,
      ih (fun x hx => h x (List.mem_cons_of_mem a hx))]

lemma basename_append (x y : String) (hy : ∀ ch ∈ y.data, ch ≠ '/') :
    basename (x ++ "/" ++ y) = y := by
  unfold basename
  have hdata : (x ++ "/" ++ y).data = (x.data ++ ['/']) ++ y.data := by
    rw [String.data_append, String.data_append]
  rw [hdata, List.reverse_append]
  have hall : ∀ ch ∈ y.data.reverse, (decide (ch ≠ '/')) = true := by
    intro ch hch
    simpa using hy ch (List.mem_reverse.mp hch)
  rw [takeWhile_append_of_all _ _ _ hall]
  have hstop :
      ((x.data ++ ['/']).reverse).takeWhile (fun ch => decide (ch ≠ '/'))
        = [] := by
    rw [List.reverse_append]
    simp [List.takeWhile_cons]
  rw [hstop, List.append_nil, List.reverse_reverse]

lemma suffix_append_of_le {α : Type} : ∀ {a b c : List α},
    a <:+ b ++ c → a.length ≤ c.length → a <:+ c := by
  intro a b c h hlen
  induction b with
  | nil => simpa using h
  | cons x b ih =>
    rw [List.cons_append] at h
    rcases List.suffix_cons_iff.mp h with h | h
    · exfalso
      have hl := congrArg List.length h
      simp [List.length_append] at hl
      omega
    · exact ih h

lemma no_slash_append_ext (t ext : String) (ht : ∀ ch ∈ t.data, ch ≠ '/')
    (hext : ∀ ch ∈ ext.data, ch ≠ '/') :
    ∀ ch ∈ (t ++ ext).data, ch ≠ '/' := by
  intro ch hch
  rw [String.data_append] at hch
  rcases List.mem_append.mp hch with h | h
  · exact ht ch h
  · exact hext ch h

lemma matches_json_self (dir t : String) (ht : ∀ ch ∈ t.data, ch ≠ '/') :
    matchesPattern "*.json" (dir ++ "/" ++ (t ++ ".json")) = true := by
  unfold matchesPattern
  rw [basename_append _ _ (no_slash_append_ext t ".json" ht (by decide))]
  apply decide_eq_true
  rw [String.data_append]
  rw [(by decide : ("*.json" : String).drop 1 = (".json" : String))]
  exact List.suffix_append _ _

lemma matches_csv_self (dir t : String) (ht : ∀ ch ∈ t.data, ch ≠ '/') :
    matchesPattern "*.csv" (dir ++ "/" ++ (t ++ ".csv")) = true := by
  unfold matchesPattern
  rw [basename_append _ _ (no_slash_append_ext t ".csv" ht (by decide))]
  apply decide_eq_true
  rw [String.data_append]
  rw [(by decide : ("*.csv" : String).drop 1 = (".csv" : String))]
  exact List.suffix_append _ _

lemma not_matches_json_sql (dir : String) :
    matchesPattern "*.json" (dir ++ "/" ++ "data_inserts.sql") = false := by
  unfold matchesPattern
  rw [basename_append _ _
    (by decide : ∀ ch ∈ ("data_inserts.sql" : String).data, ch ≠ '/')]
  decide

lemma not_matches_csv_sql (dir : String) :
    matchesPattern "*.csv" (dir ++ "/" ++ "data_inserts.sql") = false := by
  unfold matchesPattern
  rw [basename_append _ _
    (by decide : ∀ ch ∈ ("data_inserts.sql" : String).data, ch ≠ '/')]
  decide

lemma not_matches_csv_json (dir t : String)
    (ht : ∀ ch ∈ t.data, ch ≠ '/') :
    matchesPattern "*.csv" (dir ++ "/" ++ (t ++ ".json")) = false := by
  unfold matchesPattern
  rw [basename_append _ _ (no_slash_append_ext t ".json" ht (by decide))]
  apply decide_eq_false
  intro hsuf
  rw [String.data_append] at hsuf
  have h4 : (("*.csv" : String).drop 1).data.length
      ≤ ((".json" : String).data).length := by decide
  have hend := suffix_append_of_le hsuf h4
  revert hend
  decide

lemma export_data_files_sql (dg : DG) (dir : String)
    (sqlOf : Dataset → String) (jsonOf csvOf : String → List Row → String) :
    export_data_files dg dir "SQL" sqlOf jsonOf csvOf
      = [(dir ++ "/" ++ "data_inserts.sql", sqlOf dg.generatedData)] := rfl

lemma export_data_files_json (dg : DG) (dir : String)
    (sqlOf : Dataset → String) (jsonOf csvOf : String → List Row → String) :
    export_data_files dg dir "JSON" sqlOf jsonOf csvOf
      = dg.generatedData.map
          (fun e => (dir ++ "/" ++ (e.1 ++ ".json"), jsonOf e.1 e.2)) := rfl

lemma export_data_files_csv (dg : DG) (dir : String)
    (sqlOf : Dataset → String) (jsonOf csvOf : String → List Row → String) :
    export_data_files dg dir "CSV" sqlOf jsonOf csvOf
      = dg.generatedData.map
          (fun e => (dir ++ "/" ++ (e.1 ++ ".csv"), csvOf e.1 e.2)) := rfl

/-- C1: for every generated dataset returned by the generate operation,
every foreign-key column value in a child table equals some primary-key
value present in the corresponding parent table's generated rows
(referential integrity). -/
theorem generate_referential_integrity (schema : Schema)
    (orc : String → Nat → String → Nat) (rowsFor : String → Nat)
    (ds : Dataset) (hnd : (schema.map TableSpec.name).Nodup)
    (h : generate schema orc rowsFor = some ds) :
    IntegrityHolds schema ds := by
  refine generateData_integrity hnd schema [] ds (fun t ht => ht) ?_ h
  intro e he
  cases he

/-- Witness for C1: the demo schema's names are distinct, generation
succeeds on it, and the theorem yields referential integrity of the
concrete result. -/
theorem generate_referential_integrity_witness :
    IntegrityHolds demoSchema demoDataset :=
  generate_referential_integrity demoSchema demoOracle demoRowsFor
    demoDataset (by decide) (by decide)

/-- C3: for every 'Parse SQL' action, the schema stored afterwards is the
parse result (so a schema is stored iff parsing succeeded), the stored
data generator is always cleared, the configuration/generation steps are
offered exactly when parsing succeeded, and on a parse error exactly the
one error message is surfaced. -/
theorem parse_failure_clears_state (s : SessionState) (dialect : String)
    (r : Except String Schema) :
    (parseAction s dialect r).1.tablesParsed
        = (match r with | .ok t => some t | .error _ => none) ∧
    (parseAction s dialect r).1.dataGenerator = none ∧
    configOffered (parseAction s dialect r).1 = r.isOk ∧
    (parseAction s dialect r).2
        = (match r with
           | .ok _ => []
           | .error e => ["Error parsing SQL: " ++ e]) := by
  cases r <;> exact ⟨rfl, rfl, rfl, rfl⟩

/-- C2: for every 'Generate Data' action, the stored generator is the
outcome of the decode/construct/generate chain when it succeeds and
`none` when any step fails; on failure exactly one error message is
reported; the export step is offered exactly when the chain succeeded;
and the stored schema is untouched. -/
theorem generate_failure_no_commit (s : SessionState) (schema : Schema)
    (globalNumRows : Nat) (predefR : Except String PredefinedValues)
    (colmapR : Except String ColumnTypeMappings)
    (numRowsR : Except String NumRowsPerTable)
    (guessMapping : Bool) (threshold : ℚ)
    (run : DGArgs → Except String Dataset) :
    (generateAction s schema globalNumRows predefR colmapR numRowsR
        guessMapping threshold run).1.dataGenerator
      = (match generateOutcome schema globalNumRows predefR colmapR
            numRowsR guessMapping threshold run with
         | .ok dg => some dg
         | .error _ => none) ∧
    (generateAction s schema globalNumRows predefR colmapR numRowsR
        guessMapping threshold run).2
      = (match generateOutcome schema globalNumRows predefR colmapR
            numRowsR guessMapping threshold run with
         | .ok _ => []
         | .error e => ["Error generating data: " ++ e]) ∧
    exportOffered (generateAction s schema globalNumRows predefR colmapR
        numRowsR guessMapping threshold run).1
      = (generateOutcome schema globalNumRows predefR colmapR numRowsR
          guessMapping threshold run).isOk ∧
    (generateAction s schema globalNumRows predefR colmapR numRowsR
        guessMapping threshold run).1.tablesParsed = s.tablesParsed := by
  unfold generateAction exportOffered
  cases h : generateOutcome schema globalNumRows predefR colmapR numRowsR
      guessMapping threshold run <;>
    simp [h, Except.isOk, Except.toBool]

/-- C4: the 'Preview Inferred Mappings' action leaves the committed state
unchanged: the stored schema and the stored data generator are the same
after the preview as before it (so no generated dataset is stored by the
preview either). -/
theorem preview_frame_effect (s : SessionState) (schema : Schema)
    (threshold : ℚ) (runPreview : DGArgs → Except String String) :
    (previewAction s schema threshold runPreview).1.tablesParsed
        = s.tablesParsed ∧
    (previewAction s schema threshold runPreview).1.dataGenerator
        = s.dataGenerator := by
  unfold previewAction
  cases runPreview (previewDGArgs schema threshold) <;> exact ⟨rfl, rfl⟩

/-- C5 counterexample: the preview's generator does not receive the
caller's full current configuration — with the default predefined-values
and column-type-mappings configurations present in the session, the
arguments the preview passes contain neither. -/
theorem preview_not_full_config :
    ¬ PreviewReceivesFullConfig demoSchema demoPredef demoColmap 5
        (previewDGArgs demoSchema (4/5)) := by
  intro h
  have := h.2.1
  simp [previewDGArgs, demoPredef] at this

/-- C5 amended: the preview runs on a separate generator instance
receiving the schema, a fixed sample size of 5 rows, guessing enabled and
the current threshold — not the session's predefined_values,
column_type_mappings or num_rows_per_table — and the text the action
displays is the captured output of the external preview routine on
exactly those arguments. -/
theorem preview_invocation_args (s : SessionState) (schema : Schema)
    (threshold : ℚ) (runPreview : DGArgs → Except String String) :
    (previewDGArgs schema threshold).tables = schema ∧
    (previewDGArgs schema threshold).numRows = 5 ∧
    (previewDGArgs schema threshold).guessColumnTypeMappings = true ∧
    (previewDGArgs schema threshold).thresholdForGuessing = threshold ∧
    (previewDGArgs schema threshold).predefinedValues = none ∧
    (previewDGArgs schema threshold).columnTypeMappings = none ∧
    (previewDGArgs schema threshold).numRowsPerTable = none ∧
    (previewAction s schema threshold runPreview).2.2
        = (match runPreview (previewDGArgs schema threshold) with
           | .ok out => some out
           | .error _ => none) := by
  refine ⟨rfl, rfl, rfl, rfl, rfl, rfl, rfl, ?_⟩
  unfold previewAction
  cases runPreview (previewDGArgs schema threshold) <;> rfl

/-- C6: with the three JSON inputs decoded, the 'Generate Data' handler
invokes the engine on exactly the decoded configuration, the global
fallback row count (at least 1), the guess flag and the threshold, so
that each table's row count is its configured per-table count if present,
else the global fallback. -/
theorem generate_engine_invocation (schema : Schema) (globalNumRows : Nat)
    (p : PredefinedValues) (c : ColumnTypeMappings) (n : NumRowsPerTable)
    (guessMapping : Bool) (threshold : ℚ)
    (run : DGArgs → Except String Dataset) (hg : 1 ≤ globalNumRows) :
    generateOutcome schema globalNumRows (Except.ok p) (Except.ok c)
        (Except.ok n) guessMapping threshold run
      = (run (mkDGArgs schema globalNumRows p c n guessMapping
          threshold)).map
          (fun d =>
            ⟨mkDGArgs schema globalNumRows p c n guessMapping threshold,
             d⟩) ∧
    (mkDGArgs schema globalNumRows p c n guessMapping threshold).tables
        = schema ∧
    (mkDGArgs schema globalNumRows p c n guessMapping
        threshold).predefinedValues = some p ∧
    (mkDGArgs schema globalNumRows p c n guessMapping
        threshold).columnTypeMappings = some c ∧
    (mkDGArgs schema globalNumRows p c n guessMapping
        threshold).numRowsPerTable = some n ∧
    (mkDGArgs schema globalNumRows p c n guessMapping threshold).numRows
        = globalNumRows ∧
    1 ≤ (mkDGArgs schema globalNumRows p c n guessMapping
        threshold).numRows ∧
    (mkDGArgs schema globalNumRows p c n guessMapping
        threshold).guessColumnTypeMappings = guessMapping ∧
    (mkDGArgs schema globalNumRows p c n guessMapping
        threshold).thresholdForGuessing = threshold ∧
    rowCountFor (mkDGArgs schema globalNumRows p c n guessMapping
        threshold)
      = fun tbl => (n.lookup tbl).getD globalNumRows := by
  refine ⟨?_, rfl, rfl, rfl, rfl, rfl, hg, rfl, rfl, ?_⟩
  · unfold generateOutcome
    cases h : run (mkDGArgs schema globalNumRows p c n guessMapping
        threshold) <;>
      simp [h, Except.map, Except.bind, Except.pure, bind, pure]
  · funext tbl
    rfl

/-- Witness for C6 at the demo configuration with global fallback 10. -/
theorem generate_engine_invocation_witness :
    generateOutcome demoSchema 10 (Except.ok demoPredef)
        (Except.ok demoColmap) (Except.ok demoNumRows) false (4/5) demoRun
      = (demoRun (mkDGArgs demoSchema 10 demoPredef demoColmap demoNumRows
          false (4/5))).map
          (fun d =>
            ⟨mkDGArgs demoSchema 10 demoPredef demoColmap demoNumRows
               false (4/5), d⟩) ∧
    (mkDGArgs demoSchema 10 demoPredef demoColmap demoNumRows false
        (4/5)).tables = demoSchema ∧
    (mkDGArgs demoSchema 10 demoPredef demoColmap demoNumRows false
        (4/5)).predefinedValues = some demoPredef ∧
    (mkDGArgs demoSchema 10 demoPredef demoColmap demoNumRows false
        (4/5)).columnTypeMappings = some demoColmap ∧
    (mkDGArgs demoSchema 10 demoPredef demoColmap demoNumRows false
        (4/5)).numRowsPerTable = some demoNumRows ∧
    (mkDGArgs demoSchema 10 demoPredef demoColmap demoNumRows false
        (4/5)).numRows = 10 ∧
    1 ≤ (mkDGArgs demoSchema 10 demoPredef demoColmap demoNumRows false
        (4/5)).numRows ∧
    (mkDGArgs demoSchema 10 demoPredef demoColmap demoNumRows false
        (4/5)).guessColumnTypeMappings = false ∧
    (mkDGArgs demoSchema 10 demoPredef demoColmap demoNumRows false
        (4/5)).thresholdForGuessing = 4/5 ∧
    rowCountFor (mkDGArgs demoSchema 10 demoPredef demoColmap demoNumRows
        false (4/5))
      = fun tbl => (demoNumRows.lookup tbl).getD 10 :=
  generate_engine_invocation demoSchema 10 demoPredef demoColmap
    demoNumRows false (4/5) demoRun (by decide)

/-- C7: the fuzzy-matching threshold passed to the engine (in the preview
and in the generation invocation) lies in [0, 1] whenever the slider
value respects its widget bounds, and when guess mode is disabled the
threshold used is exactly 0.8. -/
theorem threshold_in_unit_interval (guessMapping : Bool) (slider : ℚ)
    (schema : Schema) (p : PredefinedValues) (c : ColumnTypeMappings)
    (n : NumRowsPerTable) (globalNumRows : Nat)
    (h0 : 0 ≤ slider) (h1 : slider ≤ 1) :
    (0 ≤ thresholdForGuessing guessMapping slider ∧
      thresholdForGuessing guessMapping slider ≤ 1) ∧
    (guessMapping = false →
      thresholdForGuessing guessMapping slider = 4/5) ∧
    (previewDGArgs schema
        (thresholdForGuessing guessMapping slider)).thresholdForGuessing
      = thresholdForGuessing guessMapping slider ∧
    (mkDGArgs schema globalNumRows p c n guessMapping
        (thresholdForGuessing guessMapping
          slider)).thresholdForGuessing
      = thresholdForGuessing guessMapping slider := by
  refine ⟨?_, ?_, rfl, rfl⟩
  · cases guessMapping with
    | false =>
        constructor <;> norm_num [thresholdForGuessing]
    | true =>
        exact ⟨by simpa [thresholdForGuessing] using h0,
               by simpa [thresholdForGuessing] using h1⟩
  · intro hguess
    subst hguess
    norm_num [thresholdForGuessing]

/-- Witness for C7 with guessing disabled and the slider at 1/2. -/
theorem threshold_in_unit_interval_witness :
    (0 ≤ thresholdForGuessing false (1/2) ∧
      thresholdForGuessing false (1/2) ≤ 1) ∧
    (false = false → thresholdForGuessing false (1/2) = 4/5) ∧
    (previewDGArgs demoSchema
        (thresholdForGuessing false (1/2))).thresholdForGuessing
      = thresholdForGuessing false (1/2) ∧
    (mkDGArgs demoSchema 10 demoPredef demoColmap demoNumRows false
        (thresholdForGuessing false (1/2))).thresholdForGuessing
      = thresholdForGuessing false (1/2) :=
  threshold_in_unit_interval false (1/2) demoSchema demoPredef demoColmap
    demoNumRows 10 (by norm_num) (by norm_num)

/-- C8: after a successful generation, the export step offers the one
stored dataset in all three formats without regenerating: the SQL
download is the insert text the exporter wrote for the stored dataset,
and the JSON and CSV ZIP archives contain exactly the files matching
`*.json` (respectively `*.csv`) that the exporter wrote into the export
directory — one entry per table, each named by the file's base name. -/
theorem export_offers_stored_dataset (dg : DG) (dir : String)
    (sqlOf : Dataset → String) (jsonOf csvOf : String → List Row → String)
    (hslash : ∀ e ∈ dg.generatedData, ∀ ch ∈ e.1.data, ch ≠ '/') :
    (exportStep dg dir sqlOf jsonOf csvOf).sqlDownload
        = some (sqlOf dg.generatedData) ∧
    (exportStep dg dir sqlOf jsonOf csvOf).jsonZip
        = dg.generatedData.map
            (fun e => (e.1 ++ ".json", jsonOf e.1 e.2)) ∧
    (exportStep dg dir sqlOf jsonOf csvOf).csvZip
        = dg.generatedData.map
            (fun e => (e.1 ++ ".csv", csvOf e.1 e.2)) := by
  refine ⟨?_, ?_, ?_⟩
  · show (export_data_files dg dir "SQL" sqlOf jsonOf csvOf).lookup
        (dir ++ "/" ++ "data_inserts.sql") = some (sqlOf dg.generatedData)
    rw [export_data_files_sql]
    simp [List.lookup]
  · show export_files_zip_in_memory
        (export_data_files dg dir "SQL" sqlOf jsonOf csvOf
          ++ export_data_files dg dir "JSON" sqlOf jsonOf csvOf) "*.json"
      = dg.generatedData.map (fun e => (e.1 ++ ".json", jsonOf e.1 e.2))
    rw [export_data_files_sql, export_data_files_json]
    unfold export_files_zip_in_memory
    have hsql := not_matches_json_sql dir
    simp only [List.singleton_append, List.filter_cons, hsql,
      Bool.false_eq_true, if_false]
    rw [List.filter_map]
    have hfil : dg.generatedData.filter
        ((fun f => matchesPattern "*.json" f.1) ∘
          (fun e => (dir ++ "/" ++ (e.1 ++ ".json"), jsonOf e.1 e.2)))
        = dg.generatedData := by
      apply List.filter_eq_self.mpr
      intro e he
      simpa using matches_json_self dir e.1 (hslash e he)
    rw [hfil, List.map_map]
    apply List.map_congr_left
    intro e he
    simp only [Function.comp]
    rw [basename_append _ _
      (no_slash_append_ext e.1 ".json" (hslash e he) (by decide))]
  · show export_files_zip_in_memory
        (export_data_files dg dir "SQL" sqlOf jsonOf csvOf
          ++ export_data_files dg dir "JSON" sqlOf jsonOf csvOf
          ++ export_data_files dg dir "CSV" sqlOf jsonOf csvOf) "*.csv"
      = dg.generatedData.map (fun e => (e.1 ++ ".csv", csvOf e.1 e.2))
    rw [export_data_files_sql, export_data_files_json,
      export_data_files_csv]
    unfold export_files_zip_in_memory
    have hsql := not_matches_csv_sql dir
    rw [List.filter_append]
    have hjsonnil : ((dg.generatedData.map
        (fun e => (dir ++ "/" ++ (e.1 ++ ".json"), jsonOf e.1 e.2))).filter
          (fun f => matchesPattern "*.csv" f.1)) = [] := by
      rw [List.filter_map]
      have hnil : dg.generatedData.filter
          ((fun f => matchesPattern "*.csv" f.1) ∘
            (fun e => (dir ++ "/" ++ (e.1 ++ ".json"), jsonOf e.1 e.2)))
          = [] := by
        apply List.filter_eq_nil_iff.mpr
        intro e he
        simp [Function.comp, not_matches_csv_json dir e.1 (hslash e he)]
      rw [hnil, List.map_nil]
    have hsqljson : (((dir ++ "/" ++ "data_inserts.sql",
          sqlOf dg.generatedData) ::
        dg.generatedData.map
          (fun e => (dir ++ "/" ++ (e.1 ++ ".json"), jsonOf e.1 e.2))).filter
          (fun f => matchesPattern "*.csv" f.1)) = [] := by
      simp only [List.filter_cons, hsql, Bool.false_eq_true, if_false]
      exact hjsonnil
    rw [List.singleton_append]
    rw [hsqljson, List.nil_append]
    rw [List.filter_map]
    have hfil : dg.generatedData.filter
        ((fun f => matchesPattern "*.csv" f.1) ∘
          (fun e => (dir ++ "/" ++ (e.1 ++ ".csv"), csvOf e.1 e.2)))
        = dg.generatedData := by
      apply List.filter_eq_self.mpr
      intro e he
      simpa using matches_csv_self dir e.1 (hslash e he)
    rw [hfil, List.map_map]
    apply List.map_congr_left
    intro e he
    simp only [Function.comp]
    rw [basename_append _ _
      (no_slash_append_ext e.1 ".csv" (hslash e he) (by decide))]

/-- Witness for C8: the demo generator's table names contain no slash,
and the theorem applies to it with concrete exporters. -/
theorem export_offers_stored_dataset_witness :
    (exportStep demoDG "tmp" demoSqlOf demoJsonOf demoCsvOf).sqlDownload
        = some (demoSqlOf demoDG.generatedData) ∧
    (exportStep demoDG "tmp" demoSqlOf demoJsonOf demoCsvOf).jsonZip
        = demoDG.generatedData.map
            (fun e => (e.1 ++ ".json", demoJsonOf e.1 e.2)) ∧
    (exportStep demoDG "tmp" demoSqlOf demoJsonOf demoCsvOf).csvZip
        = demoDG.generatedData.map
            (fun e => (e.1 ++ ".csv", demoCsvOf e.1 e.2)) :=
  export_offers_stored_dataset demoDG "tmp" demoSqlOf demoJsonOf demoCsvOf
    (by decide)

/-- C9: every emitted log record appends to the session's log list one
line of the form `[LEVEL] message` with `LEVEL` the record's level name
uppercased, and a sequence of records is appended in emission order, so
the log view lists messages most recent last. -/
theorem log_lines_format_and_order (logs : List String)
    (rs : List LogRecord) :
    rs.foldl emit logs = logs ++ rs.map logLine := by
  induction rs generalizing logs with
  | nil => simp
  | cons r rs ih =>
    rw [List.foldl_cons, ih, emit_eq]
    simp

/-- C10: the guarded attachment keeps at most one `StreamlitLogHandler`
on the root logger, no matter how many times the module initialization
code runs. -/
theorem at_most_one_streamlit_handler (hs : List Handler) (n : Nat)
    (h : countStreamlit hs ≤ 1) :
    countStreamlit (attachHandlerStep^[n] hs) ≤ 1 := by
  induction n generalizing hs with
  | zero => simpa using h
  | succ n ih =>
    rw [Function.iterate_succ_apply]
    exact ih _ (countStreamlit_attachHandlerStep hs h)

/-- Witness for C10: a root logger with one ordinary handler, after three
runs of the initialization code, still has at most one
`StreamlitLogHandler`. -/
theorem at_most_one_streamlit_handler_witness :
    countStreamlit (attachHandlerStep^[3] [Handler.other "stderr"]) ≤ 1 :=
  at_most_one_streamlit_handler [Handler.other "stderr"] 3 (by decide)

end DataFillerWebUI
